import Mathlib

/-!
Shallow embedding of the rke2-security-responder telemetry reporter
(main.go and its retry-enabled variant) and proofs of the spec claims.

Go strings are modelled as lists of characters; Go maps with string keys
are modelled as association lists in insertion order (Go map keys are
unique, so first-match lookup coincides with map lookup); fallible
Kubernetes API calls are modelled as `Except Unit` values describing the
outcome of the single call the program makes.
-/

namespace RKE2

/-- A Go string, modelled as a list of characters. -/
abbrev GoStr := List Char

def emptyStr : GoStr := []

/-- `strings.ToLower`, restricted to the ASCII fragment the keyword
tables live in (`Char.toLower` lowercases exactly the ASCII uppercase
letters). -/
def lowerStr (s : GoStr) : GoStr := s.map Char.toLower

/-- Prefix test used to model `strings.Contains`. -/
def startsWith : GoStr → GoStr → Bool
  | _, [] => true
  | [], _ :: _ => false
  | a :: s, b :: t => a == b && startsWith s t

/-- Model of the Go standard library `strings.Contains s sub`. -/
def strContains : GoStr → GoStr → Bool
  | [], sub => sub.isEmpty
  | a :: s, sub => startsWith (a :: s) sub || strContains s sub

-- String literals of the source, as character lists.
def trueStr : GoStr := ("true").toList
def enabledStr : GoStr := ("enabled").toList
def disabledStr : GoStr := ("disabled").toList
def unknownStr : GoStr := ("unknown").toList
def noneStr : GoStr := ("none").toList

def controlPlaneLabelKey : GoStr := ("node-role.kubernetes.io/control-plane").toList
def masterLabelKey : GoStr := ("node-role.kubernetes.io/master").toList
def selinuxLabelKey : GoStr := ("security.alpha.kubernetes.io/selinux").toList

def kubernetesVersionKey : GoStr := ("kubernetesVersion").toList
def clusteruuidKey : GoStr := ("clusteruuid").toList
def serverNodeCountKey : GoStr := ("serverNodeCount").toList
def agentNodeCountKey : GoStr := ("agentNodeCount").toList
def osKey : GoStr := ("os").toList
def selinuxFieldKey : GoStr := ("selinux").toList
def cniPluginKey : GoStr := ("cni-plugin").toList
def ingressControllerKey : GoStr := ("ingress-controller").toList

/-- A cluster node as the program reads it: its labels
(`node.Labels`, a Go map modelled as an association list) and
`node.Status.NodeInfo.OSImage`. -/
structure KNode where
  labels : List (GoStr × GoStr)
  osImage : GoStr
deriving DecidableEq

/-- `isControlPlaneNode` from the source: a node is control-plane iff
either well-known role label key is present (value ignored). -/
def isControlPlaneNode (node : KNode) : Bool :=
  (node.labels.lookup controlPlaneLabelKey).isSome ||
    (node.labels.lookup masterLabelKey).isSome

/-- `getSELinuxStatus` from the source: label present with value
`"enabled"` gives `enabled`, present with any other value gives
`disabled`, absent gives `unknown`. -/
def getSELinuxStatus (node : KNode) : GoStr :=
  match node.labels.lookup selinuxLabelKey with
  | some selinux => if selinux == enabledStr then enabledStr else disabledStr
  | none => unknownStr

/-- Accumulator result of the node loop in `collectTelemetryData`. -/
structure Census where
  serverNodeCount : Int
  agentNodeCount : Int
  osInfo : GoStr
  selinuxInfo : GoStr
deriving DecidableEq

/-- The node loop of `collectTelemetryData`: counts servers and agents,
and captures `osInfo` / `selinuxInfo` only while they are still `""`. -/
def nodeCensus : List KNode → Int → Int → GoStr → GoStr → Census
  | [], s, a, os, se => ⟨s, a, os, se⟩
  | node :: rest, s, a, os, se =>
    if isControlPlaneNode node then
      nodeCensus rest (s + 1) a
        (if os == emptyStr then node.osImage else os)
        (if se == emptyStr then getSELinuxStatus node else se)
    else
      nodeCensus rest s (a + 1)
        (if os == emptyStr then node.osImage else os)
        (if se == emptyStr then getSELinuxStatus node else se)

/-- The node loop started on the zero state, as `collectTelemetryData`
runs it. -/
def census (nodes : List KNode) : Census := nodeCensus nodes 0 0 emptyStr emptyStr

lemma nodeCensus_counts (nodes : List KNode) : ∀ s a os se,
    (nodeCensus nodes s a os se).serverNodeCount +
      (nodeCensus nodes s a os se).agentNodeCount = s + a + nodes.length := by
  induction nodes with
  | nil => intro s a os se; simp [nodeCensus]
  | cons node rest ih =>
    intro s a os se
    by_cases h : isControlPlaneNode node
    · simp only [nodeCensus, h, if_true]
      rw [ih]; simp only [List.length_cons]; push_cast; ring
    · simp only [nodeCensus, h, if_false, Bool.false_eq_true]
      rw [ih]; simp only [List.length_cons]; push_cast; ring

lemma nodeCensus_nonneg (nodes : List KNode) : ∀ s a os se, 0 ≤ s → 0 ≤ a →
    0 ≤ (nodeCensus nodes s a os se).serverNodeCount ∧
      0 ≤ (nodeCensus nodes s a os se).agentNodeCount := by
  induction nodes with
  | nil => intro s a os se hs ha; simp [nodeCensus]; exact ⟨hs, ha⟩
  | cons node rest ih =>
    intro s a os se hs ha
    by_cases h : isControlPlaneNode node
    · simp only [nodeCensus, h, if_true]
      exact ih _ _ _ _ (by omega) ha
    · simp only [nodeCensus, h, if_false, Bool.false_eq_true]
      exact ih _ _ _ _ hs (by omega)

/-- Claim C1: every node is classified control-plane iff one of the two
role label keys is present (regardless of value), otherwise agent, and
the two counters produced by the node loop sum to the number of nodes
listed. -/
theorem claim1_node_classification_and_counts (nodes : List KNode) :
    (∀ n, n ∈ nodes →
      (isControlPlaneNode n = true ↔
        (∃ v, n.labels.lookup controlPlaneLabelKey = some v) ∨
          (∃ v, n.labels.lookup masterLabelKey = some v))) ∧
    (census nodes).serverNodeCount + (census nodes).agentNodeCount =
      (nodes.length : Int) := by
  constructor
  · intro n _
    simp only [isControlPlaneNode, Bool.or_eq_true, Option.isSome_iff_exists]
  · have h := nodeCensus_counts nodes 0 0 emptyStr emptyStr
    simpa [census] using h

/-- Witness for C1 at a concrete two-node listing. -/
theorem claim1_witness :
    (census [⟨[(controlPlaneLabelKey, trueStr)], ("Ubuntu").toList⟩,
             ⟨[], ("Ubuntu").toList⟩]).serverNodeCount +
      (census [⟨[(controlPlaneLabelKey, trueStr)], ("Ubuntu").toList⟩,
               ⟨[], ("Ubuntu").toList⟩]).agentNodeCount = 2 ∧
    isControlPlaneNode ⟨[(controlPlaneLabelKey, trueStr)], ("Ubuntu").toList⟩ = true := by
  refine ⟨(claim1_node_classification_and_counts _).2, ?_⟩
  have h := (claim1_node_classification_and_counts
      [⟨[(controlPlaneLabelKey, trueStr)], ("Ubuntu").toList⟩]).1
      ⟨[(controlPlaneLabelKey, trueStr)], ("Ubuntu").toList⟩ (by simp)
  exact h.mpr (Or.inl ⟨trueStr, by decide⟩)

/-- Claim C2: the SELinux status derived from a node is `enabled` when
the SELinux label is present with value `"enabled"`, `disabled` when it
is present with any other value, and `unknown` when it is absent. -/
theorem claim2_selinux_mapping (node : KNode) :
    (node.labels.lookup selinuxLabelKey = some enabledStr →
      getSELinuxStatus node = enabledStr) ∧
    (∀ v, node.labels.lookup selinuxLabelKey = some v → v ≠ enabledStr →
      getSELinuxStatus node = disabledStr) ∧
    (node.labels.lookup selinuxLabelKey = none →
      getSELinuxStatus node = unknownStr) := by
  refine ⟨?_, ?_, ?_⟩
  · intro h; simp [getSELinuxStatus, h]
  · intro v h hne; simp [getSELinuxStatus, h, hne]
  · intro h; simp [getSELinuxStatus, h]

/-- Witness for C2: the three cases of the mapping at concrete nodes. -/
theorem claim2_witness :
    getSELinuxStatus ⟨[(selinuxLabelKey, enabledStr)], emptyStr⟩ = enabledStr ∧
    getSELinuxStatus ⟨[(selinuxLabelKey, ("permissive").toList)], emptyStr⟩ = disabledStr ∧
    getSELinuxStatus ⟨[], emptyStr⟩ = unknownStr := by
  refine ⟨(claim2_selinux_mapping _).1 (by decide),
    (claim2_selinux_mapping _).2.1 (("permissive").toList) (by decide) (by decide),
    (claim2_selinux_mapping _).2.2 (by decide)⟩

lemma getSELinuxStatus_ne_empty (node : KNode) : getSELinuxStatus node ≠ emptyStr := by
  unfold getSELinuxStatus
  rcases node.labels.lookup selinuxLabelKey with _ | v
  · decide
  · by_cases h : v == enabledStr <;> simp [h] <;> decide

lemma nodeCensus_os_stable (nodes : List KNode) : ∀ s a os se, os ≠ emptyStr →
    (nodeCensus nodes s a os se).osInfo = os := by
  induction nodes with
  | nil => intro s a os se _; simp [nodeCensus]
  | cons node rest ih =>
    intro s a os se hos
    have hbeq : (os == emptyStr) = false := by
      simpa [beq_iff_eq] using hos
    by_cases h : isControlPlaneNode node <;>
      simp only [nodeCensus, h, if_true, if_false, Bool.false_eq_true, hbeq] <;>
      exact ih _ _ _ _ hos

lemma nodeCensus_se_stable (nodes : List KNode) : ∀ s a os se, se ≠ emptyStr →
    (nodeCensus nodes s a os se).selinuxInfo = se := by
  induction nodes with
  | nil => intro s a os se _; simp [nodeCensus]
  | cons node rest ih =>
    intro s a os se hse
    have hbeq : (se == emptyStr) = false := by
      simpa [beq_iff_eq] using hse
    by_cases h : isControlPlaneNode node <;>
      simp only [nodeCensus, h, if_true, if_false, Bool.false_eq_true, hbeq] <;>
      exact ih _ _ _ _ hse

/-- The OS image of the first node in listing order whose OS image is
non-empty, `""` when there is none: what the node loop actually reports
as `osInfo`. -/
def firstNonEmptyOSImage : List KNode → GoStr
  | [] => emptyStr
  | node :: rest =>
    if node.osImage == emptyStr then firstNonEmptyOSImage rest else node.osImage

lemma nodeCensus_os_eq_first (nodes : List KNode) : ∀ s a se,
    (nodeCensus nodes s a emptyStr se).osInfo = firstNonEmptyOSImage nodes := by
  induction nodes with
  | nil => intro s a se; simp [nodeCensus, firstNonEmptyOSImage]
  | cons node rest ih =>
    intro s a se
    by_cases hos : node.osImage = emptyStr
    · have hbeq : (node.osImage == emptyStr) = true := by simpa [beq_iff_eq] using hos
      by_cases h : isControlPlaneNode node <;>
        simp only [nodeCensus, h, if_true, if_false, Bool.false_eq_true,
          firstNonEmptyOSImage, hbeq, beq_self_eq_true, hos] <;>
        exact ih _ _ _
    · have hbeq : (node.osImage == emptyStr) = false := by simpa [beq_iff_eq] using hos
      by_cases h : isControlPlaneNode node <;>
        simp only [nodeCensus, h, if_true, if_false, Bool.false_eq_true,
          firstNonEmptyOSImage, hbeq, beq_self_eq_true] <;>
        exact nodeCensus_os_stable _ _ _ _ _ hos

/-- Counterexample to claim C3 as stated: with a first node whose OS
image is empty, the reported `os` comes from the second node, so it
differs from the value derived from the first node, and editing the
second node's OS image changes the report. -/
theorem claim3_counterexample :
    (census [⟨[], emptyStr⟩, ⟨[], ("Ubuntu 22.04").toList⟩]).osInfo ≠
        (⟨[], emptyStr⟩ : KNode).osImage ∧
      (census [⟨[], emptyStr⟩, ⟨[], ("Ubuntu 22.04").toList⟩]).osInfo ≠
        (census [⟨[], emptyStr⟩, ⟨[], ("openSUSE Leap 15.5").toList⟩]).osInfo := by
  constructor <;> decide

/-- Claim C3 as amended: for a non-empty listing, the reported `selinux`
is derived from the first node alone (later nodes never affect it), and
the reported `os` is the OS image of the first node in listing order
with a non-empty OS image; in particular, whenever the first node's OS
image is non-empty, the reported `os` equals it, independently of every
later node. -/
theorem claim3_first_node_sampling (node : KNode) (rest : List KNode) :
    (census (node :: rest)).selinuxInfo = getSELinuxStatus node ∧
    (census (node :: rest)).osInfo = firstNonEmptyOSImage (node :: rest) ∧
    (node.osImage ≠ emptyStr → (census (node :: rest)).osInfo = node.osImage) := by
  refine ⟨?_, ?_, ?_⟩
  · by_cases h : isControlPlaneNode node <;>
      simp only [census, nodeCensus, h, if_true, if_false, Bool.false_eq_true,
        beq_self_eq_true] <;>
      exact nodeCensus_se_stable _ _ _ _ _ (getSELinuxStatus_ne_empty node)
  · exact nodeCensus_os_eq_first _ _ _ _
  · intro hos
    have := nodeCensus_os_eq_first (node :: rest) 0 0 emptyStr
    have hbeq : (node.osImage == emptyStr) = false := by simpa [beq_iff_eq] using hos
    rw [census, this]
    simp [firstNonEmptyOSImage, hbeq]

/-- Witness for the amended C3 at a concrete two-node listing with a
non-empty first OS image. -/
theorem claim3_witness :
    (census [⟨[], ("SLES 15").toList⟩, ⟨[], ("Ubuntu 22.04").toList⟩]).osInfo =
        ("SLES 15").toList ∧
      (census [⟨[], ("SLES 15").toList⟩, ⟨[], ("Ubuntu 22.04").toList⟩]).selinuxInfo =
        unknownStr := by
  refine ⟨(claim3_first_node_sampling ⟨[], ("SLES 15").toList⟩
    [⟨[], ("Ubuntu 22.04").toList⟩]).2.2 (by decide), ?_⟩
  have h := (claim3_first_node_sampling ⟨[], ("SLES 15").toList⟩
    [⟨[], ("Ubuntu 22.04").toList⟩]).1
  rw [h]; decide

lemma startsWith_iff (sub : GoStr) : ∀ s : GoStr, startsWith s sub = true ↔ sub <+: s := by
  induction sub with
  | nil =>
    intro s
    refine ⟨fun _ => List.nil_prefix, fun _ => ?_⟩
    cases s <;> rfl
  | cons b t ih =>
    intro s
    cases s with
    | nil => simp [startsWith]
    | cons a s =>
      rw [show startsWith (a :: s) (b :: t) = (a == b && startsWith s t) from rfl,
        Bool.and_eq_true, List.cons_prefix_cons]
      constructor
      · rintro ⟨h1, h2⟩
        exact ⟨(beq_iff_eq.mp h1).symm, (ih s).mp h2⟩
      · rintro ⟨h1, h2⟩
        exact ⟨beq_iff_eq.mpr h1.symm, (ih s).mpr h2⟩

lemma strContains_iff (s sub : GoStr) : strContains s sub = true ↔ sub <:+: s := by
  induction s with
  | nil => simp [strContains, List.isEmpty_iff, List.infix_nil]
  | cons a s ih =>
    rw [strContains]
    simp [startsWith_iff, ih, List.infix_cons_iff]

/-- `hasSubstring` from the source: the scanning loop
`for i := 0; i <= len(s)-len(substr); i++` comparing the slice
`s[i:i+len(substr)]` against `substr` (with ints, a negative bound runs
zero iterations, hence the length guard). -/
def hasSubstring (s substr : GoStr) : Bool :=
  if substr.length ≤ s.length then
    (List.range (s.length - substr.length + 1)).any fun i =>
      List.take substr.length (List.drop i s) == substr
  else false

lemma hasSubstring_iff (s substr : GoStr) :
    hasSubstring s substr = true ↔ substr <:+: s := by
  constructor
  · intro h
    unfold hasSubstring at h
    split at h
    case isTrue hle =>
      rw [List.any_eq_true] at h
      obtain ⟨i, _, hp⟩ := h
      rw [beq_iff_eq] at hp
      obtain ⟨q, hq⟩ := List.prefix_iff_eq_take.mpr hp.symm
      exact ⟨List.take i s, q, by rw [List.append_assoc, hq, List.take_append_drop]⟩
    case isFalse => cases h
  · rintro ⟨p, q, hpq⟩
    unfold hasSubstring
    have hlen : substr.length ≤ s.length := by
      subst hpq; simp [List.length_append]; omega
    rw [if_pos hlen, List.any_eq_true]
    refine ⟨p.length, ?_, ?_⟩
    · rw [List.mem_range]
      subst hpq; simp [List.length_append]; omega
    · rw [beq_iff_eq]
      subst hpq
      rw [List.append_assoc, List.drop_left, List.take_left]

/-- `contains` from the source: the hand-rolled containment helper with
its redundant whole-string, head-slice and tail-slice comparisons. -/
def contains (s substr : GoStr) : Bool :=
  decide (substr.length ≤ s.length) && (s == substr ||
    (decide (substr.length < s.length) && (List.take substr.length s == substr ||
      (List.drop (s.length - substr.length) s == substr ||
        hasSubstring s substr))))

/-- Claim C10: the custom helper `contains` is the standard
(case-sensitive) substring containment: it returns `true` exactly when
`substr` occurs contiguously inside `s`, and it agrees extensionally
with the standard-library containment function (modelled by
`strContains`). -/
theorem claim10_contains_is_standard_containment (s substr : GoStr) :
    (contains s substr = true ↔ substr <:+: s) ∧
      contains s substr = strContains s substr := by
  have main : contains s substr = true ↔ substr <:+: s := by
    constructor
    · intro h
      unfold contains at h
      simp only [Bool.and_eq_true, Bool.or_eq_true, decide_eq_true_eq,
        beq_iff_eq] at h
      obtain ⟨-, h | ⟨-, h⟩⟩ := h
      · exact ⟨[], [], by simp [h]⟩
      · rcases h with h | h | h
        · refine ⟨[], List.drop substr.length s, ?_⟩
          rw [List.nil_append]
          conv_rhs => rw [← List.take_append_drop substr.length s]
          rw [h]
        · refine ⟨List.take (s.length - substr.length) s, [], ?_⟩
          rw [List.append_nil]
          conv_rhs => rw [← List.take_append_drop (s.length - substr.length) s]
          rw [h]
        · exact (hasSubstring_iff s substr).mp h
    · intro hinf
      obtain ⟨p, q, hpq⟩ := hinf
      have hle : substr.length ≤ s.length := by
        rw [← hpq]; simp [List.length_append]; omega
      unfold contains
      simp only [Bool.and_eq_true, Bool.or_eq_true, decide_eq_true_eq,
        beq_iff_eq]
      refine ⟨hle, ?_⟩
      by_cases heq : s = substr
      · exact Or.inl heq
      · refine Or.inr ⟨?_, Or.inr (Or.inr ((hasSubstring_iff s substr).mpr
          ⟨p, q, hpq⟩))⟩
        rcases Nat.lt_or_ge substr.length s.length with hlt | hge
        · exact hlt
        · exfalso
          have hplen : p.length + substr.length + q.length = s.length := by
            rw [← hpq]; simp [List.length_append]; omega
          have hp0 : p = [] := by
            have := List.length_eq_zero.mp (by omega : p.length = 0)
            exact this
          have hq0 : q = [] := by
            exact List.length_eq_zero.mp (by omega : q.length = 0)
          subst hp0; subst hq0
          simp only [List.nil_append, List.append_nil] at hpq
          exact heq hpq.symm
  exact ⟨main, Bool.eq_iff_iff.mpr (main.trans (strContains_iff s substr).symm)⟩

/-- Witness for C10: `contains` finds `canal` inside
`rke2-canal-agent`. -/
theorem claim10_witness :
    contains (("rke2-canal-agent").toList) (("canal").toList) = true :=
  (claim10_contains_is_standard_containment (("rke2-canal-agent").toList)
      (("canal").toList)).1.mpr
    ⟨("rke2-").toList, ("-agent").toList, by decide⟩

-- Keyword literals of the detector tables.
def kwCanal : GoStr := ("canal").toList
def kwFlannel : GoStr := ("flannel").toList
def kwCalico : GoStr := ("calico").toList
def kwCilium : GoStr := ("cilium").toList
def kwWeave : GoStr := ("weave").toList
def kwNginxIngress : GoStr := ("nginx-ingress").toList
def kwRke2IngressNginx : GoStr := ("rke2-ingress-nginx").toList
def kwTraefik : GoStr := ("traefik").toList

/-- The loop body of `detectCNIPlugin`: scan DaemonSet names in listing
order; for each, lowercase the name and test the CNI keywords in table
order; the first hit wins, no hit gives `"unknown"`. -/
def detectCNIScan : List GoStr → GoStr
  | [] => unknownStr
  | ds :: rest =>
    let name := lowerStr ds
    if strContains name kwCanal then kwCanal
    else if strContains name kwFlannel then kwFlannel
    else if strContains name kwCalico then kwCalico
    else if strContains name kwCilium then kwCilium
    else if strContains name kwWeave then kwWeave
    else detectCNIScan rest

/-- `detectCNIPlugin`: a failed DaemonSet listing propagates as an
error, otherwise the names are scanned. -/
def detectCNIPlugin (dsRes : Except Unit (List GoStr)) : Except Unit GoStr :=
  match dsRes with
  | .error e => .error e
  | .ok daemonSets => .ok (detectCNIScan daemonSets)

/-- The shared loop body of `detectIngressController` (run first on
Deployment names, then on DaemonSet names): lowercase each name;
`nginx-ingress` or `rke2-ingress-nginx` hits give the canonical label
`rke2-ingress-nginx`, then `traefik` is tried; `none` means no hit. -/
def detectIngressScan : List GoStr → Option GoStr
  | [] => none
  | d :: rest =>
    let name := lowerStr d
    if strContains name kwNginxIngress || strContains name kwRke2IngressNginx then
      some kwRke2IngressNginx
    else if strContains name kwTraefik then some kwTraefik
    else detectIngressScan rest

/-- `detectIngressController`: a failed Deployment listing propagates as
an error; Deployments are scanned first, then (only when the DaemonSet
listing succeeded — its error is swallowed) DaemonSets; no hit gives
`"none"`. -/
def detectIngressController (depRes dsRes : Except Unit (List GoStr)) :
    Except Unit GoStr :=
  match depRes with
  | .error e => .error e
  | .ok deployments =>
    match detectIngressScan deployments with
    | some r => .ok r
    | none =>
      match dsRes with
      | .error _ => .ok noneStr
      | .ok daemonSets =>
        match detectIngressScan daemonSets with
        | some r => .ok r
        | none => .ok noneStr

/-- The CNI keyword table, in source order. -/
def cniTable : List GoStr := [kwCanal, kwFlannel, kwCalico, kwCilium, kwWeave]

/-- Specification-level matcher for one DaemonSet name: the first CNI
keyword, in table order, occurring case-insensitively in the name. -/
def cniMatch (ds : GoStr) : Option GoStr :=
  cniTable.find? fun kw => strContains (lowerStr ds) kw

/-- The ingress keyword table, in source order, with the label each
keyword is mapped to. -/
def ingressTable : List (GoStr × GoStr) :=
  [(kwNginxIngress, kwRke2IngressNginx),
   (kwRke2IngressNginx, kwRke2IngressNginx),
   (kwTraefik, kwTraefik)]

/-- Specification-level matcher for one workload name: the label mapped
from the first ingress keyword, in table order, occurring
case-insensitively in the name. -/
def ingressMatch (d : GoStr) : Option GoStr :=
  (ingressTable.find? fun p => strContains (lowerStr d) p.1).map Prod.snd

lemma cniMatch_eq (ds : GoStr) :
    cniMatch ds =
      (if strContains (lowerStr ds) kwCanal then some kwCanal
       else if strContains (lowerStr ds) kwFlannel then some kwFlannel
       else if strContains (lowerStr ds) kwCalico then some kwCalico
       else if strContains (lowerStr ds) kwCilium then some kwCilium
       else if strContains (lowerStr ds) kwWeave then some kwWeave
       else none) := by
  by_cases h1 : strContains (lowerStr ds) kwCanal <;>
    by_cases h2 : strContains (lowerStr ds) kwFlannel <;>
    by_cases h3 : strContains (lowerStr ds) kwCalico <;>
    by_cases h4 : strContains (lowerStr ds) kwCilium <;>
    by_cases h5 : strContains (lowerStr ds) kwWeave <;>
    simp [cniMatch, cniTable, List.find?, h1, h2, h3, h4, h5]

lemma ingressMatch_eq (d : GoStr) :
    ingressMatch d =
      (if strContains (lowerStr d) kwNginxIngress ||
          strContains (lowerStr d) kwRke2IngressNginx then
        some kwRke2IngressNginx
       else if strContains (lowerStr d) kwTraefik then some kwTraefik
       else none) := by
  by_cases h1 : strContains (lowerStr d) kwNginxIngress <;>
    by_cases h2 : strContains (lowerStr d) kwRke2IngressNginx <;>
    by_cases h3 : strContains (lowerStr d) kwTraefik <;>
    simp [ingressMatch, ingressTable, List.find?, h1, h2, h3]

lemma detectCNIScan_eq_findSome (dss : List GoStr) :
    detectCNIScan dss = (List.findSome? cniMatch dss).getD unknownStr := by
  induction dss with
  | nil => simp [detectCNIScan, List.findSome?]
  | cons ds rest ih =>
    rw [List.findSome?_cons, cniMatch_eq]
    by_cases h1 : strContains (lowerStr ds) kwCanal <;>
      by_cases h2 : strContains (lowerStr ds) kwFlannel <;>
      by_cases h3 : strContains (lowerStr ds) kwCalico <;>
      by_cases h4 : strContains (lowerStr ds) kwCilium <;>
      by_cases h5 : strContains (lowerStr ds) kwWeave <;>
      simp [detectCNIScan, h1, h2, h3, h4, h5, ih]

lemma detectIngressScan_eq_findSome (ds : List GoStr) :
    detectIngressScan ds = List.findSome? ingressMatch ds := by
  induction ds with
  | nil => simp [detectIngressScan, List.findSome?]
  | cons d rest ih =>
    rw [List.findSome?_cons, ingressMatch_eq]
    by_cases h1 : strContains (lowerStr d) kwNginxIngress <;>
      by_cases h2 : strContains (lowerStr d) kwRke2IngressNginx <;>
      by_cases h3 : strContains (lowerStr d) kwTraefik <;>
      simp [detectIngressScan, h1, h2, h3, ih]

lemma findSome_append {α β : Type} (f : α → Option β) (l1 l2 : List α) :
    List.findSome? f (l1 ++ l2) =
      (match List.findSome? f l1 with
       | some r => some r
       | none => List.findSome? f l2) := by
  induction l1 with
  | nil => simp [List.findSome?]
  | cons a l1 ih =>
    rw [List.cons_append, List.findSome?_cons, List.findSome?_cons]
    cases f a <;> simp [ih]

lemma detectCNIScan_congr (dss : List GoStr) : ∀ other : List GoStr,
    dss.map lowerStr = other.map lowerStr →
      detectCNIScan dss = detectCNIScan other := by
  induction dss with
  | nil =>
    intro other h
    rw [List.map_eq_nil_iff.mp h.symm]  -- other = []
  | cons ds rest ih =>
    intro other h
    cases other with
    | nil => simp at h
    | cons d orest =>
      simp only [List.map_cons, List.cons.injEq] at h
      rw [show detectCNIScan (ds :: rest) =
          (if strContains (lowerStr ds) kwCanal then kwCanal
           else if strContains (lowerStr ds) kwFlannel then kwFlannel
           else if strContains (lowerStr ds) kwCalico then kwCalico
           else if strContains (lowerStr ds) kwCilium then kwCilium
           else if strContains (lowerStr ds) kwWeave then kwWeave
           else detectCNIScan rest) from rfl,
        show detectCNIScan (d :: orest) =
          (if strContains (lowerStr d) kwCanal then kwCanal
           else if strContains (lowerStr d) kwFlannel then kwFlannel
           else if strContains (lowerStr d) kwCalico then kwCalico
           else if strContains (lowerStr d) kwCilium then kwCilium
           else if strContains (lowerStr d) kwWeave then kwWeave
           else detectCNIScan orest) from rfl,
        h.1, ih orest h.2]

lemma detectIngressScan_congr (ds : List GoStr) : ∀ other : List GoStr,
    ds.map lowerStr = other.map lowerStr →
      detectIngressScan ds = detectIngressScan other := by
  induction ds with
  | nil =>
    intro other h
    rw [List.map_eq_nil_iff.mp h.symm]
  | cons d rest ih =>
    intro other h
    cases other with
    | nil => simp at h
    | cons d2 orest =>
      simp only [List.map_cons, List.cons.injEq] at h
      rw [show detectIngressScan (d :: rest) =
          (if strContains (lowerStr d) kwNginxIngress ||
              strContains (lowerStr d) kwRke2IngressNginx then
            some kwRke2IngressNginx
           else if strContains (lowerStr d) kwTraefik then some kwTraefik
           else detectIngressScan rest) from rfl,
        show detectIngressScan (d2 :: orest) =
          (if strContains (lowerStr d2) kwNginxIngress ||
              strContains (lowerStr d2) kwRke2IngressNginx then
            some kwRke2IngressNginx
           else if strContains (lowerStr d2) kwTraefik then some kwTraefik
           else detectIngressScan orest) from rfl,
        h.1, ih orest h.2]

/-- Claim C4: detector matching is case-insensitive substring matching
against the ordered keyword tables — `strContains` is substring
occurrence, results depend only on the lowercased names, the winner is
the first match scanning objects in listing order (Deployments before
DaemonSets for ingress, each object tested against the table in order),
and with no match the CNI result is `"unknown"` and the ingress result
is `"none"`. -/
theorem claim4_detector_matching (dss deps dss2 : List GoStr) :
    (∀ name kw : GoStr, strContains name kw = true ↔ kw <:+: name) ∧
    (∀ other, dss.map lowerStr = other.map lowerStr →
      detectCNIScan dss = detectCNIScan other) ∧
    (∀ other, deps.map lowerStr = other.map lowerStr →
      detectIngressScan deps = detectIngressScan other) ∧
    detectCNIPlugin (Except.ok dss) =
      Except.ok ((List.findSome? cniMatch dss).getD unknownStr) ∧
    detectIngressController (Except.ok deps) (Except.ok dss2) =
      Except.ok ((List.findSome? ingressMatch (deps ++ dss2)).getD noneStr) ∧
    ((∀ ds, ds ∈ dss → cniMatch ds = none) →
      detectCNIPlugin (Except.ok dss) = Except.ok unknownStr) ∧
    ((∀ d, d ∈ deps ++ dss2 → ingressMatch d = none) →
      detectIngressController (Except.ok deps) (Except.ok dss2) =
        Except.ok noneStr) := by
  have hcni : detectCNIPlugin (Except.ok dss) =
      Except.ok ((List.findSome? cniMatch dss).getD unknownStr) := by
    simp [detectCNIPlugin, detectCNIScan_eq_findSome]
  have hing : detectIngressController (Except.ok deps) (Except.ok dss2) =
      Except.ok ((List.findSome? ingressMatch (deps ++ dss2)).getD noneStr) := by
    rw [show detectIngressController (Except.ok deps) (Except.ok dss2) =
        (match detectIngressScan deps with
         | some r => Except.ok r
         | none =>
           match detectIngressScan dss2 with
           | some r => Except.ok r
           | none => Except.ok noneStr) from rfl]
    rw [findSome_append, detectIngressScan_eq_findSome,
      detectIngressScan_eq_findSome]
    cases List.findSome? ingressMatch deps <;>
      cases List.findSome? ingressMatch dss2 <;> simp
  refine ⟨fun name kw => strContains_iff name kw, detectCNIScan_congr dss,
    detectIngressScan_congr deps, hcni, hing, ?_, ?_⟩
  · intro hall
    rw [hcni, List.findSome?_eq_none_iff.mpr ?_]
    · rfl
    · intro ds hds; exact hall ds hds
  · intro hall
    rw [hing, List.findSome?_eq_none_iff.mpr ?_]
    · rfl
    · intro d hd; exact hall d hd

/-- Witness for C4: a concrete mixed-case listing where the first
object's `canal` hit wins over a later `calico` object, and a
no-match listing yielding the sentinels. -/
theorem claim4_witness :
    detectCNIPlugin (Except.ok [("RKE2-Canal-node").toList, ("calico-sts").toList]) =
        Except.ok kwCanal ∧
      detectIngressController (Except.ok [("CoreDNS").toList]) (Except.ok []) =
        Except.ok noneStr := by
  constructor
  · have h := (claim4_detector_matching
      [("RKE2-Canal-node").toList, ("calico-sts").toList] [] []).2.2.2.1
    rw [h]; exact congrArg Except.ok (by decide)
  · exact (claim4_detector_matching [] [("CoreDNS").toList] []).2.2.2.2.2.2
      (by decide)

/-- A scalar stored in `ExtraFieldInfo` (`map[string]interface{}` in
the source holds ints and strings here). -/
inductive FieldValue where
  | int : Int → FieldValue
  | str : GoStr → FieldValue
deriving DecidableEq

/-- `TelemetryData` from the source; the two Go maps are modelled as
association lists in insertion order (their keys are distinct). -/
structure TelemetryData where
  appVersion : GoStr
  extraTagInfo : List (GoStr × GoStr)
  extraFieldInfo : List (GoStr × FieldValue)
deriving DecidableEq

/-- The outcomes of the read-only Kubernetes API calls the program
makes, one field per call site: server version, the `kube-system`
namespace UID, the node listing, and the `kube-system` DaemonSet and
Deployment name listings. -/
structure Cluster where
  serverVersion : Except Unit GoStr
  kubeSystemUID : Except Unit GoStr
  nodes : Except Unit (List KNode)
  kubeSystemDaemonSets : Except Unit (List GoStr)
  kubeSystemDeployments : Except Unit (List GoStr)

/-- `collectTelemetryData` from the source: version, namespace UID and
node listing failures are fatal (returned as errors); CNI and ingress
detection failures are caught locally and replaced by `"unknown"`. -/
def collectTelemetryData (c : Cluster) : Except Unit TelemetryData :=
  match c.serverVersion with
  | .error e => .error e
  | .ok gitVersion =>
    match c.kubeSystemUID with
    | .error e => .error e
    | .ok uid =>
      match c.nodes with
      | .error e => .error e
      | .ok nodes =>
        let cen := census nodes
        let cniPlugin :=
          match detectCNIPlugin c.kubeSystemDaemonSets with
          | .ok s => s
          | .error _ => unknownStr
        let ingressController :=
          match detectIngressController c.kubeSystemDeployments
              c.kubeSystemDaemonSets with
          | .ok s => s
          | .error _ => unknownStr
        .ok
          { appVersion := gitVersion
            extraTagInfo :=
              [(kubernetesVersionKey, gitVersion), (clusteruuidKey, uid)]
            extraFieldInfo :=
              [(serverNodeCountKey, FieldValue.int cen.serverNodeCount),
               (agentNodeCountKey, FieldValue.int cen.agentNodeCount),
               (osKey, FieldValue.str cen.osInfo),
               (selinuxFieldKey, FieldValue.str cen.selinuxInfo),
               (cniPluginKey, FieldValue.str cniPlugin),
               (ingressControllerKey, FieldValue.str ingressController)] }

/-- Claim C7: when the three fatal steps succeed, collection never
returns an error — a failed DaemonSet listing only makes the
`cni-plugin` field `"unknown"`, a failed Deployment listing only makes
the `ingress-controller` field `"unknown"`, and a complete record is
still returned. -/
theorem claim7_detection_errors_degrade (c : Cluster) (ver uid : GoStr)
    (nodes : List KNode) (hv : c.serverVersion = .ok ver)
    (hu : c.kubeSystemUID = .ok uid) (hn : c.nodes = .ok nodes) :
    ∃ d, collectTelemetryData c = .ok d ∧
      (∀ e, c.kubeSystemDaemonSets = .error e →
        (cniPluginKey, FieldValue.str unknownStr) ∈ d.extraFieldInfo) ∧
      (∀ e, c.kubeSystemDeployments = .error e →
        (ingressControllerKey, FieldValue.str unknownStr) ∈ d.extraFieldInfo) := by
  unfold collectTelemetryData
  rw [hv, hu, hn]
  refine ⟨_, rfl, ?_, ?_⟩
  · intro e he
    rw [show detectCNIPlugin c.kubeSystemDaemonSets = .error e from by
      rw [he]; rfl]
    simp
  · intro e he
    rw [show detectIngressController c.kubeSystemDeployments
        c.kubeSystemDaemonSets = .error e from by rw [he]; rfl]
    simp

/-- Witness for C7: a cluster whose DaemonSet and Deployment listings
both fail still yields a record with both detector fields `"unknown"`. -/
theorem claim7_witness :
    ∃ d, collectTelemetryData
        ⟨.ok (("v1.28.3+rke2r1").toList), .ok (("aaaa-bbbb").toList),
          .ok [⟨[], ("Ubuntu").toList⟩], .error (), .error ()⟩ = .ok d ∧
      (cniPluginKey, FieldValue.str unknownStr) ∈ d.extraFieldInfo ∧
      (ingressControllerKey, FieldValue.str unknownStr) ∈ d.extraFieldInfo := by
  obtain ⟨d, hd, h1, h2⟩ := claim7_detection_errors_degrade
    ⟨.ok (("v1.28.3+rke2r1").toList), .ok (("aaaa-bbbb").toList),
      .ok [⟨[], ("Ubuntu").toList⟩], .error (), .error ()⟩
    (("v1.28.3+rke2r1").toList) (("aaaa-bbbb").toList)
    [⟨[], ("Ubuntu").toList⟩] rfl rfl rfl
  exact ⟨d, hd, h1 () rfl, h2 () rfl⟩

/-- The fixed tag key list of every collected record. -/
def tagKeys : List GoStr := [kubernetesVersionKey, clusteruuidKey]

/-- The fixed field key list of every collected record. -/
def fieldKeys : List GoStr :=
  [serverNodeCountKey, agentNodeCountKey, osKey, selinuxFieldKey,
   cniPluginKey, ingressControllerKey]

/-- Claim C8: every successfully collected record carries exactly the
fixed tag keys and the fixed field keys (so every key is present even
when its value is a sentinel), the two key sets are disjoint, and the
two node counters are non-negative. -/
theorem claim8_record_shape (c : Cluster) (d : TelemetryData)
    (h : collectTelemetryData c = .ok d) :
    d.extraTagInfo.map Prod.fst = tagKeys ∧
    d.extraFieldInfo.map Prod.fst = fieldKeys ∧
    (∀ k, k ∈ tagKeys → k ∉ fieldKeys) ∧
    (∃ sc ac : Int,
      (serverNodeCountKey, FieldValue.int sc) ∈ d.extraFieldInfo ∧ 0 ≤ sc ∧
      (agentNodeCountKey, FieldValue.int ac) ∈ d.extraFieldInfo ∧ 0 ≤ ac) := by
  unfold collectTelemetryData at h
  rcases hv : c.serverVersion with e | ver <;> rw [hv] at h
  · cases h
  rcases hu : c.kubeSystemUID with e | uid <;> rw [hu] at h
  · cases h
  rcases hn : c.nodes with e | nodes <;> rw [hn] at h
  · cases h
  rw [Except.ok.injEq] at h
  subst h
  refine ⟨rfl, rfl, by decide, ?_⟩
  have hpos := nodeCensus_nonneg nodes 0 0 emptyStr emptyStr le_rfl le_rfl
  exact ⟨(census nodes).serverNodeCount, (census nodes).agentNodeCount,
    by simp, hpos.1, by simp, hpos.2⟩

/-- A concrete healthy one-node cluster used by the C8 witness. -/
def demoCluster : Cluster :=
  ⟨.ok (("v1.28.3+rke2r1").toList), .ok (("aaaa-bbbb").toList),
    .ok [⟨[(masterLabelKey, trueStr)], ("Ubuntu").toList⟩],
    .ok [("rke2-canal").toList], .ok []⟩

/-- The record `demoCluster` collects. -/
def demoRecord : TelemetryData :=
  match collectTelemetryData demoCluster with
  | .ok d => d
  | .error _ => ⟨[], [], []⟩

/-- Witness for C8 at a concrete one-node cluster. -/
theorem claim8_witness :
    collectTelemetryData demoCluster = .ok demoRecord ∧
      demoRecord.extraTagInfo.map Prod.fst = tagKeys ∧
      demoRecord.extraFieldInfo.map Prod.fst = fieldKeys := by
  have h : collectTelemetryData demoCluster = .ok demoRecord := rfl
  exact ⟨h, (claim8_record_shape _ _ h).1, (claim8_record_shape _ _ h).2.1⟩

-- Sender constants from the source (`retryDelay` in seconds).
def maxRetries : Nat := 3
def retryDelay : Nat := 2

/-- What one delivery attempt can observe: a transport-level error from
`client.Do`, or a response with some status code. -/
inductive AttemptOutcome where
  | transportErr : AttemptOutcome
  | status : Nat → AttemptOutcome
deriving DecidableEq

/-- The per-attempt failure test of `sendTelemetryData`: a transport
error, or `resp.StatusCode < 200 || resp.StatusCode >= 300`. -/
def attemptFailed : AttemptOutcome → Bool
  | .transportErr => true
  | .status code => decide (code < 200) || decide (300 ≤ code)

/-- Observable result of one `sendTelemetryData` call: how many attempts
ran, the sleeps performed (in seconds, in order), and the returned error
(`none` is the `nil` success return, otherwise the last observed
error). -/
structure SendOutcome where
  attemptsMade : Nat
  sleeps : List Nat
  result : Option AttemptOutcome
deriving DecidableEq

/-- The retry loop of `sendTelemetryData`:
`for attempt := 1; attempt <= maxRetries; attempt++`, sleeping
`(attempt-1) * retryDelay` before every attempt after the first,
recording the last error of a failed attempt and returning `nil` on the
first success; `fuel` is `maxRetries - attempt + 1`, the number of loop
iterations still allowed. -/
def sendLoop (respond : Nat → AttemptOutcome) :
    Nat → Nat → List Nat → Option AttemptOutcome → SendOutcome
  | 0, attempt, sleeps, lastErr => ⟨attempt - 1, sleeps, lastErr⟩
  | fuel + 1, attempt, sleeps, _lastErr =>
    let sleeps2 :=
      if 1 < attempt then sleeps ++ [(attempt - 1) * retryDelay] else sleeps
    let outcome := respond attempt
    if attemptFailed outcome then
      sendLoop respond fuel (attempt + 1) sleeps2 (some outcome)
    else
      ⟨attempt, sleeps2, none⟩

/-- `sendTelemetryData`, abstracted over what the endpoint answers on
each attempt (the JSON marshalling of the fixed-shape record cannot
fail and is not modelled). -/
def sendTelemetryData (respond : Nat → AttemptOutcome) : SendOutcome :=
  sendLoop respond maxRetries 1 [] none

/-- Claim C5: the sender makes between 1 and `maxRetries = 3` attempts;
before each attempt `k` after the first it sleeps `(k-1) * retryDelay`;
an attempt fails exactly on a transport error or a non-2xx status; it
returns success iff some allowed attempt succeeds, stopping at the
first success; and when every attempt fails it performs all
`maxRetries` attempts and returns the last observed error. -/
theorem claim5_retry_loop (respond : Nat → AttemptOutcome) :
    (sendTelemetryData respond).attemptsMade ≤ maxRetries ∧
    1 ≤ (sendTelemetryData respond).attemptsMade ∧
    (sendTelemetryData respond).sleeps =
      (List.range ((sendTelemetryData respond).attemptsMade - 1)).map
        (fun i => (i + 1) * retryDelay) ∧
    (∀ o, attemptFailed o = true ↔
      (o = .transportErr ∨
        ∃ code, o = .status code ∧ (code < 200 ∨ 300 ≤ code))) ∧
    ((sendTelemetryData respond).result = none ↔
      ∃ k, 1 ≤ k ∧ k ≤ maxRetries ∧ attemptFailed (respond k) = false) ∧
    ((sendTelemetryData respond).result = none →
      attemptFailed (respond (sendTelemetryData respond).attemptsMade) = false ∧
        ∀ k, 1 ≤ k → k < (sendTelemetryData respond).attemptsMade →
          attemptFailed (respond k) = true) ∧
    ((sendTelemetryData respond).result ≠ none →
      (sendTelemetryData respond).attemptsMade = maxRetries ∧
        (sendTelemetryData respond).result = some (respond maxRetries)) := by
  have hchar : ∀ o, attemptFailed o = true ↔
      (o = AttemptOutcome.transportErr ∨
        ∃ code, o = AttemptOutcome.status code ∧ (code < 200 ∨ 300 ≤ code)) := by
    intro o
    cases o with
    | transportErr => simp [attemptFailed]
    | status code => simp [attemptFailed]
  by_cases h1 : attemptFailed (respond 1) = true
  · by_cases h2 : attemptFailed (respond 2) = true
    · by_cases h3 : attemptFailed (respond 3) = true
      · have hred : sendTelemetryData respond =
            ⟨3, [2, 4], some (respond 3)⟩ := by
          simp [sendTelemetryData, maxRetries, sendLoop, h1, h2, h3, retryDelay]
        rw [hred]
        refine ⟨by norm_num [maxRetries], by norm_num, rfl, hchar, ?_, ?_, ?_⟩
        · simp only [maxRetries]
          constructor
          · intro h; cases h
          · rintro ⟨k, hk1, hk3, hfk⟩
            interval_cases k <;> simp_all
        · intro h; cases h
        · intro _; exact ⟨rfl, rfl⟩
      · have hred : sendTelemetryData respond = ⟨3, [2, 4], none⟩ := by
          simp [sendTelemetryData, maxRetries, sendLoop, h1, h2, h3, retryDelay]
        rw [hred]
        rw [Bool.not_eq_true] at h3
        refine ⟨by norm_num [maxRetries], by norm_num, rfl, hchar, ?_, ?_, ?_⟩
        · simp only [maxRetries]
          exact ⟨fun _ => ⟨3, by norm_num, by norm_num, h3⟩, fun _ => by trivial⟩
        · intro _
          refine ⟨h3, ?_⟩
          intro k hk1 hk3
          interval_cases k <;> assumption
        · intro h; exact absurd rfl h
    · have hred : sendTelemetryData respond = ⟨2, [2], none⟩ := by
        simp [sendTelemetryData, maxRetries, sendLoop, h1, h2, retryDelay]
      rw [hred]
      rw [Bool.not_eq_true] at h2
      refine ⟨by norm_num [maxRetries], by norm_num, rfl, hchar, ?_, ?_, ?_⟩
      · simp only [maxRetries]
        exact ⟨fun _ => ⟨2, by norm_num, by norm_num, h2⟩, fun _ => by trivial⟩
      · intro _
        refine ⟨h2, ?_⟩
        intro k hk1 hk2
        interval_cases k
        exact h1
      · intro h; exact absurd rfl h
  · have hred : sendTelemetryData respond = ⟨1, [], none⟩ := by
      simp [sendTelemetryData, maxRetries, sendLoop, h1]
    rw [hred]
    rw [Bool.not_eq_true] at h1
    refine ⟨by norm_num [maxRetries], by norm_num, rfl, hchar, ?_, ?_, ?_⟩
    · simp only [maxRetries]
      exact ⟨fun _ => ⟨1, by norm_num, by norm_num, h1⟩, fun _ => by trivial⟩
    · intro _
      exact ⟨h1, fun k hk1 hk2 => absurd (Nat.lt_of_lt_of_le hk2 hk1) (by omega)⟩
    · intro h; exact absurd rfl h

/-- An endpoint that always answers HTTP 503. -/
def respond503 : Nat → AttemptOutcome := fun _ => .status 503

/-- Witness for C5: against an endpoint that always answers 503,
exactly `maxRetries` attempts run, the sleeps are `2s` then `4s`, and
the call reports the last failure. -/
theorem claim5_witness :
    (sendTelemetryData respond503).attemptsMade = maxRetries ∧
      (sendTelemetryData respond503).sleeps =
        [retryDelay, 2 * retryDelay] ∧
      (sendTelemetryData respond503).result =
        some (AttemptOutcome.status 503) := by
  have h := claim5_retry_loop respond503
  have hne : (sendTelemetryData respond503).result ≠ none := by decide
  refine ⟨(h.2.2.2.2.2.2 hne).1, by decide, ?_⟩
  rw [(h.2.2.2.2.2.2 hne).2]
  rfl

lemma sendLoop_attempts_ge (respond : Nat → AttemptOutcome) : ∀ fuel attempt
    sleeps lastErr, 1 ≤ fuel →
    attempt ≤ (sendLoop respond fuel attempt sleeps lastErr).attemptsMade := by
  intro fuel
  induction fuel with
  | zero => intro _ _ _ h; omega
  | succ f ih =>
    intro attempt sleeps lastErr _
    rw [sendLoop]
    by_cases h : attemptFailed (respond attempt) = true
    · simp only [h, if_true]
      cases f with
      | zero => simp [sendLoop]
      | succ f2 =>
        exact le_trans (Nat.le_succ attempt)
          (ih (attempt + 1) _ _ (by omega))
    · simp [h]

lemma sendTelemetryData_attempts_pos (respond : Nat → AttemptOutcome) :
    1 ≤ (sendTelemetryData respond).attemptsMade :=
  sendLoop_attempts_ge respond maxRetries 1 [] none (by norm_num [maxRetries])

/-- Whether a modelled API call succeeded. -/
def exceptOk {α : Type} (x : Except Unit α) : Bool :=
  match x with
  | .ok _ => true
  | .error _ => false

/-- The compiled-in default endpoint. -/
def defaultTelemetryEndpoint : GoStr :=
  ("https://telemetry.rke2.io/v1/telemetry").toList

/-- The two environment variables `main` reads (the empty string models
an unset variable, as `os.Getenv` returns). -/
structure EnvVars where
  disableTelemetry : GoStr
  telemetryEndpoint : GoStr

/-- Endpoint resolution in `main`: the `TELEMETRY_ENDPOINT` override if
non-empty, else the default. -/
def resolveEndpoint (env : EnvVars) : GoStr :=
  if env.telemetryEndpoint == emptyStr then defaultTelemetryEndpoint
  else env.telemetryEndpoint

/-- Observable outcome of one process run: the exit code, how many
cluster API calls were made, and how many network delivery attempts
were made. -/
structure MainResult where
  exitCode : Nat
  apiCalls : Nat
  netAttempts : Nat
deriving DecidableEq

/-- Number of cluster API calls `collectTelemetryData` performs, one
per call site actually reached: version, namespace, nodes, the CNI
DaemonSet listing, the ingress Deployment listing, and the ingress
DaemonSet listing (reached only when the Deployment listing succeeded
with no match). -/
def apiCallCount (c : Cluster) : Nat :=
  match c.serverVersion with
  | .error _ => 1
  | .ok _ =>
    match c.kubeSystemUID with
    | .error _ => 2
    | .ok _ =>
      match c.nodes with
      | .error _ => 3
      | .ok _ =>
        5 +
          match c.kubeSystemDeployments with
          | .error _ => 0
          | .ok deployments =>
            match detectIngressScan deployments with
            | some _ => 0
            | none => 1

lemma apiCallCount_pos (c : Cluster) : 1 ≤ apiCallCount c := by
  unfold apiCallCount
  rcases hv : c.serverVersion with e | v
  · exact Nat.le_refl 1
  rcases hu : c.kubeSystemUID with e | u
  · show (1 : Nat) ≤ 2; norm_num
  rcases hn : c.nodes with e | nodes
  · show (1 : Nat) ≤ 3; norm_num
  exact le_trans (by norm_num : (1 : Nat) ≤ 5) (Nat.le_add_right 5 _)

/-- `main` from the source: the opt-out gate, config and client
construction, fatal collection, then best-effort sending; the exit code
and call counters are the observable outcome. -/
def mainRun (env : EnvVars) (configOk clientOk : Bool) (c : Cluster)
    (respond : Nat → AttemptOutcome) : MainResult :=
  if env.disableTelemetry == trueStr then
    { exitCode := 0, apiCalls := 0, netAttempts := 0 }
  else if !configOk then
    { exitCode := 1, apiCalls := 0, netAttempts := 0 }
  else if !clientOk then
    { exitCode := 1, apiCalls := 0, netAttempts := 0 }
  else
    match collectTelemetryData c with
    | .error _ => { exitCode := 1, apiCalls := apiCallCount c, netAttempts := 0 }
    | .ok _ =>
      { exitCode := 0, apiCalls := apiCallCount c,
        netAttempts := (sendTelemetryData respond).attemptsMade }

/-- Claim C6: the exit code is `0` exactly on opt-out or when client and
config construction and all three fatal collection steps succeed (the
send outcome never affects it), and non-zero exactly when, not opted
out, construction or a fatal collection step fails. -/
theorem claim6_exit_codes (env : EnvVars) (configOk clientOk : Bool)
    (c : Cluster) (respond : Nat → AttemptOutcome) :
    ((mainRun env configOk clientOk c respond).exitCode = 0 ↔
      (env.disableTelemetry = trueStr ∨
        (configOk = true ∧ clientOk = true ∧
          exceptOk c.serverVersion = true ∧
          exceptOk c.kubeSystemUID = true ∧
          exceptOk c.nodes = true))) ∧
    ((mainRun env configOk clientOk c respond).exitCode ≠ 0 ↔
      (env.disableTelemetry ≠ trueStr ∧
        (configOk = false ∨ clientOk = false ∨
          exceptOk c.serverVersion = false ∨
          exceptOk c.kubeSystemUID = false ∨
          exceptOk c.nodes = false))) := by
  by_cases hd : env.disableTelemetry = trueStr
  · have hb : (env.disableTelemetry == trueStr) = true := by
      simpa [beq_iff_eq] using hd
    simp [mainRun, hb, hd]
  · have hb : (env.disableTelemetry == trueStr) = false := by
      simpa [beq_iff_eq] using hd
    cases configOk
    · simp [mainRun, hb, hd]
    cases clientOk
    · simp [mainRun, hb, hd]
    rcases hv : c.serverVersion with e | v
    · simp [mainRun, hb, hd, collectTelemetryData, hv, exceptOk]
    rcases hu : c.kubeSystemUID with e | u
    · simp [mainRun, hb, hd, collectTelemetryData, hv, hu, exceptOk]
    rcases hn : c.nodes with e | nodes
    · simp [mainRun, hb, hd, collectTelemetryData, hv, hu, hn, exceptOk]
    simp [mainRun, hb, hd, collectTelemetryData, hv, hu, hn, exceptOk]

/-- Witness for C6: opted out gives exit code `0`; a run whose node
listing fails gives a non-zero exit code. -/
theorem claim6_witness :
    (mainRun ⟨trueStr, emptyStr⟩ true true demoCluster respond503).exitCode = 0 ∧
      (mainRun ⟨emptyStr, emptyStr⟩ true true
          ⟨.ok (("v1").toList), .ok (("u").toList), .error (), .ok [], .ok []⟩
          respond503).exitCode ≠ 0 := by
  constructor
  · exact (claim6_exit_codes ⟨trueStr, emptyStr⟩ true true demoCluster
      respond503).1.mpr (Or.inl rfl)
  · exact (claim6_exit_codes ⟨emptyStr, emptyStr⟩ true true
      ⟨.ok (("v1").toList), .ok (("u").toList), .error (), .ok [], .ok []⟩
      respond503).2.mpr ⟨by decide, by simp [exceptOk]⟩

/-- Claim C9: with `DISABLE_TELEMETRY = "true"` the run makes zero API
calls and zero network attempts and exits `0`; with any other value the
opt-out gate does not fire, so (once the client is constructed)
collection proceeds with at least one API call and, when collection
succeeds, at least one delivery attempt. -/
theorem claim9_optout_gate (env : EnvVars) (configOk clientOk : Bool)
    (c : Cluster) (respond : Nat → AttemptOutcome) :
    (env.disableTelemetry = trueStr →
      mainRun env configOk clientOk c respond =
        { exitCode := 0, apiCalls := 0, netAttempts := 0 }) ∧
    (env.disableTelemetry ≠ trueStr → configOk = true → clientOk = true →
      1 ≤ (mainRun env configOk clientOk c respond).apiCalls ∧
        ((∃ d, collectTelemetryData c = .ok d) →
          1 ≤ (mainRun env configOk clientOk c respond).netAttempts)) := by
  constructor
  · intro hd
    have hb : (env.disableTelemetry == trueStr) = true := by
      simpa [beq_iff_eq] using hd
    simp [mainRun, hb]
  · intro hd hcfg hcl
    subst hcfg; subst hcl
    have hb : (env.disableTelemetry == trueStr) = false := by
      simpa [beq_iff_eq] using hd
    rcases hcol : collectTelemetryData c with e | d
    · constructor
      · simp [mainRun, hb, hcol, apiCallCount_pos c]
      · rintro ⟨d, hd2⟩
        cases hd2
    · constructor
      · simp [mainRun, hb, hcol, apiCallCount_pos c]
      · intro _
        simp [mainRun, hb, hcol, sendTelemetryData_attempts_pos respond]

/-- Witness for C9: a `"true"` opt-out makes zero calls; an unset
variable proceeds to collection. -/
theorem claim9_witness :
    mainRun ⟨trueStr, emptyStr⟩ true true demoCluster respond503 =
        { exitCode := 0, apiCalls := 0, netAttempts := 0 } ∧
      1 ≤ (mainRun ⟨emptyStr, emptyStr⟩ true true demoCluster
          respond503).apiCalls := by
  constructor
  · exact (claim9_optout_gate ⟨trueStr, emptyStr⟩ true true demoCluster
      respond503).1 rfl
  · exact ((claim9_optout_gate ⟨emptyStr, emptyStr⟩ true true demoCluster
      respond503).2 (by decide) rfl rfl).1

end RKE2
